import Mathlib

/-!
Verification model of `s3_cache/s3_cache.py` (class `S3Cache`, a
flask-caching backend storing values in an S3 bucket).

The S3 service is modelled as an association list from (bucket, object key)
to stored bytes, together with per-request fault flags that say whether a
given network request raises. The boto3 client calls used by the source
(`head_object`, `download_fileobj`, `upload_fileobj`, `delete_object`) are
modelled as functions on that world. A generated boto3 API method such as
`delete_object` accepts only keyword arguments and raises `TypeError` when
called positionally; the transfer helpers `download_fileobj` and
`upload_fileobj` are ordinary methods with positional parameters. The call
style is made explicit so the source's call sites can be translated exactly.

`pickle` is modelled as a record of a dump and a load function, each of
which may fail (raise); values and serialized bytes are type parameters.

Each cache operation returns the Python return value (with `Except` marking
an exception that propagates out of the method), the world after the call,
the log records written, and the trace of S3 requests issued.
-/

namespace S3CacheModel

/-- Outcome of a failed S3 request, as seen by an `except Exception` handler. -/
inductive S3Error where
  | notFound
  | clientError
  | typeError
deriving DecidableEq, Repr

/-- Whether a boto3 client method is invoked with keyword or positional arguments. -/
inductive CallStyle where
  | keyword
  | positional
deriving DecidableEq, Repr

/-- One S3 request issued by the adapter, with the bucket and object key it targets. -/
inductive Request where
  | headObject (bucket k : String)
  | downloadFileobj (bucket k : String)
  | uploadFileobj (bucket k : String)
  | deleteObject (style : CallStyle) (bucket k : String)
deriving DecidableEq, Repr

/-- The object key an S3 request targets. -/
def Request.targetKey : Request → String
  | .headObject _ k => k
  | .downloadFileobj _ k => k
  | .uploadFileobj _ k => k
  | .deleteObject _ _ k => k

/-- The bucket an S3 request targets. -/
def Request.targetBucket : Request → String
  | .headObject b _ => b
  | .downloadFileobj b _ => b
  | .uploadFileobj b _ => b
  | .deleteObject _ b _ => b

/-- One record written to the logging sink (`logging.warn` / `logging.exception`). -/
inductive LogEntry where
  | warn (msg : String)
  | exc
deriving DecidableEq, Repr

/-- The bytes stored at a (bucket, object key) pair, if any. -/
def lookupStore {B : Type} (store : List ((String × String) × B))
    (bk : String × String) : Option B :=
  match store with
  | [] => none
  | (k, b) :: rest => if k = bk then some b else lookupStore rest bk

/-- Remove every entry at a (bucket, object key) pair. -/
def eraseStore {B : Type} (store : List ((String × String) × B))
    (bk : String × String) : List ((String × String) × B) :=
  store.filter fun p => decide (p.1 ≠ bk)

/-- Store bytes at a (bucket, object key) pair, overwriting any existing object. -/
def putStore {B : Type} (store : List ((String × String) × B))
    (bk : String × String) (b : B) : List ((String × String) × B) :=
  (bk, b) :: eraseStore store bk

/-- The S3 service: the stored objects, plus fault flags telling, per bucket and
object key, whether a head, download, upload or delete request raises. -/
structure S3World (B : Type) where
  store : List ((String × String) × B)
  headFault : String → String → Bool
  downloadFault : String → String → Bool
  uploadFault : String → String → Bool
  deleteFault : String → String → Bool

/-- boto3 `head_object`: raises on a network/permission fault, raises a 404
client error when the object is absent, succeeds otherwise. -/
def head_object {B : Type} (w : S3World B) (bucket k : String) : Except S3Error Unit :=
  if w.headFault bucket k then .error .clientError
  else
    match lookupStore w.store (bucket, k) with
    | some _ => .ok ()
    | none => .error .notFound

/-- boto3 `download_fileobj`: raises on a fault or when the object is absent,
otherwise fills the buffer with the stored bytes. -/
def download_fileobj {B : Type} (w : S3World B) (bucket k : String) : Except S3Error B :=
  if w.downloadFault bucket k then .error .clientError
  else
    match lookupStore w.store (bucket, k) with
    | some b => .ok b
    | none => .error .notFound

/-- boto3 `upload_fileobj`: raises on a fault, otherwise stores the buffer's
bytes at the object key, overwriting any existing object. -/
def upload_fileobj {B : Type} (w : S3World B) (body : B) (bucket k : String) :
    Except S3Error (S3World B) :=
  if w.uploadFault bucket k then .error .clientError
  else .ok { w with store := putStore w.store (bucket, k) body }

/-- boto3 `delete_object`. It is a generated API method, so it accepts only
keyword arguments (`Bucket=`, `Key=`): called with positional arguments it
raises `TypeError` before any request is sent. With keyword arguments it
raises on a fault and otherwise removes the object (deleting a missing
object succeeds). -/
def delete_object {B : Type} (style : CallStyle) (w : S3World B) (bucket k : String) :
    Except S3Error (S3World B) :=
  match style with
  | .positional => .error .typeError
  | .keyword =>
    if w.deleteFault bucket k then .error .clientError
    else .ok { w with store := eraseStore w.store (bucket, k) }

/-- The pickle module: `dump` serializes a value to bytes, `load` deserializes
bytes back to a value; either may fail (raise a `PickleError`). -/
structure Serde (V B : Type) where
  dump : V → Except Unit B
  load : B → Except Unit V

/-- The `S3Cache` instance: constructor-time configuration plus its collaborators
(the serializer standing for the `pickle` module). -/
structure S3Cache (V B : Type) where
  bucket_name : String
  key_prefix : String
  default_timeout : Nat := 300
  serde : Serde V B

/-- Result of one cache operation: the Python return value (an `Except.error`
means an exception propagated out of the method), the world after the call,
the log records written, and the S3 requests issued. -/
structure OpResult (α B : Type) where
  result : α
  world : S3World B
  log : List LogEntry
  reqs : List Request

/-- `_get_full_key`: generate a S3 key from the cache key, prepending the prefix. -/
def S3Cache._get_full_key {V B : Type} (c : S3Cache V B) (key : String) : String :=
  S3Cache.key_prefix c ++ key

/-- `_key_exists`: `head_object` (keyword arguments) inside `try/except`;
`False` on any exception, `True` otherwise. Returns the boolean together with
the request issued. -/
def S3Cache._key_exists {V B : Type} (c : S3Cache V B) (w : S3World B) (key : String) :
    Bool × List Request :=
  let req := Request.headObject c.bucket_name (c._get_full_key key)
  match head_object w c.bucket_name (c._get_full_key key) with
  | .error _ => (false, [req])
  | .ok _ => (true, [req])

/-- `get`: return `None` when `_key_exists` is false; otherwise download the
object into a buffer inside `try/except` (on an exception: log and return
`None`); in the `else` branch, `pickle.load` runs outside the `try`, so a
deserialization failure propagates out of `get`. -/
def S3Cache.get {V B : Type} (c : S3Cache V B) (w : S3World B) (key : String) :
    OpResult (Except Unit (Option V)) B :=
  let (ex, exReqs) := c._key_exists w key
  if !ex then ⟨.ok none, w, [], exReqs⟩
  else
    let dlReq := Request.downloadFileobj c.bucket_name (c._get_full_key key)
    match download_fileobj w c.bucket_name (c._get_full_key key) with
    | .error _ =>
      ⟨.ok none, w, [.warn "Failed to get key {key}", .exc], exReqs ++ [dlReq]⟩
    | .ok bytes =>
      match c.serde.load bytes with
      | .error e => ⟨.error e, w, [], exReqs ++ [dlReq]⟩
      | .ok v => ⟨.ok (some v), w, [], exReqs ++ [dlReq]⟩

/-- `delete`: return `False` when `_key_exists` is false; otherwise call
`delete_object` with the bucket and key as positional arguments inside
`try/except` (on an exception: log and return `False`; otherwise `True`). -/
def S3Cache.delete {V B : Type} (c : S3Cache V B) (w : S3World B) (key : String) :
    OpResult Bool B :=
  let (ex, exReqs) := c._key_exists w key
  if !ex then ⟨false, w, [], exReqs⟩
  else
    let delReq := Request.deleteObject .positional c.bucket_name (c._get_full_key key)
    match delete_object .positional w c.bucket_name (c._get_full_key key) with
    | .error _ =>
      ⟨false, w, [.warn "Failed to delete key {key}", .exc], exReqs ++ [delReq]⟩
    | .ok w' => ⟨true, w', [], exReqs ++ [delReq]⟩

/-- `set`: `pickle.dump` the value into a buffer outside any `try`, so a
serialization failure propagates before any request is issued; then upload the
buffer inside `try/except` (on an exception: log and return `False`; otherwise
`True`). The `timeout` parameter is ignored. -/
def S3Cache.set {V B : Type} (c : S3Cache V B) (w : S3World B) (key : String) (value : V)
    (timeout : Option Nat) : OpResult (Except Unit Bool) B :=
  match c.serde.dump value with
  | .error e => ⟨.error e, w, [], []⟩
  | .ok bytes =>
    let upReq := Request.uploadFileobj c.bucket_name (c._get_full_key key)
    match upload_fileobj w bytes c.bucket_name (c._get_full_key key) with
    | .error _ =>
      ⟨.ok false, w, [.warn "Error while setting key {key}", .exc], [upReq]⟩
    | .ok w' => ⟨.ok true, w', [], [upReq]⟩

/-- `add`: return `False` when `_key_exists` is true; otherwise delegate to
`set` with the same timeout. -/
def S3Cache.add {V B : Type} (c : S3Cache V B) (w : S3World B) (key : String) (value : V)
    (timeout : Option Nat) : OpResult (Except Unit Bool) B :=
  let (ex, exReqs) := c._key_exists w key
  if ex then ⟨.ok false, w, [], exReqs⟩
  else
    let r := c.set w key value timeout
    { r with reqs := exReqs ++ r.reqs }

/-- `clear`: unconditionally return `False`; no request, no log, no change. -/
def S3Cache.clear {V B : Type} (c : S3Cache V B) (w : S3World B) (key : String) :
    OpResult Bool B :=
  ⟨false, w, [], []⟩

/-- `has`: call `_key_exists` and discard its boolean; the method body has no
`return`, so Python returns `None` (modelled as `Unit`). -/
def S3Cache.has {V B : Type} (c : S3Cache V B) (w : S3World B) (key : String) :
    OpResult Unit B :=
  let (_, exReqs) := c._key_exists w key
  ⟨(), w, [], exReqs⟩

/-! ### Concrete fixtures used by witnesses and counterexamples -/

/-- A serializer on `Nat` that always succeeds and round-trips exactly. -/
def natSerde : Serde Nat Nat := ⟨fun v => .ok v, fun b => .ok b⟩

/-- A serializer whose `load` always fails (undecodable stored bytes). -/
def badLoadSerde : Serde Nat Nat := ⟨fun v => .ok v, fun _ => .error ()⟩

/-- A serializer whose `dump` always fails (unpicklable value). -/
def badDumpSerde : Serde Nat Nat := ⟨fun _ => .error (), fun b => .ok b⟩

/-- A fault-free world holding the given objects. -/
def mkWorld (store : List ((String × String) × Nat)) : S3World Nat :=
  ⟨store, fun _ _ => false, fun _ _ => false, fun _ _ => false, fun _ _ => false⟩

/-- The spec's scenario cache: bucket `"cache-bucket"`, prefix `"app1:"`. -/
def cacheFix : S3Cache Nat Nat := ⟨"cache-bucket", "app1:", 300, natSerde⟩

/-- A fault-free world where `"app1:session-42"` holds the bytes `7`. -/
def worldFix : S3World Nat := mkWorld [(("cache-bucket", "app1:session-42"), 7)]

/-- An empty fault-free world. -/
def worldEmpty : S3World Nat := mkWorld []

/-- A cache whose serializer cannot decode anything. -/
def cacheBadLoad : S3Cache Nat Nat := ⟨"cache-bucket", "app1:", 300, badLoadSerde⟩

/-- A cache whose serializer cannot encode anything. -/
def cacheBadDump : S3Cache Nat Nat := ⟨"cache-bucket", "app1:", 300, badDumpSerde⟩

/-- A world where `"app1:session-42"` is stored but every download request raises. -/
def worldDownFault : S3World Nat :=
  ⟨[(("cache-bucket", "app1:session-42"), 7)],
   fun _ _ => false, fun _ _ => true, fun _ _ => false, fun _ _ => false⟩

/-- A fault-free world except that every upload request raises. -/
def worldUpFault : S3World Nat :=
  ⟨[], fun _ _ => false, fun _ _ => false, fun _ _ => true, fun _ _ => false⟩

/-! ### Helper lemmas -/

theorem lookupStore_putStore {B : Type} (s : List ((String × String) × B))
    (bk : String × String) (b : B) : lookupStore (putStore s bk b) bk = some b := by
  simp [putStore, lookupStore]

theorem key_exists_eq {V B : Type} (c : S3Cache V B) (w : S3World B) (key : String) :
    c._key_exists w key =
      ((match head_object w c.bucket_name (c._get_full_key key) with
        | .error _ => false
        | .ok _ => true),
       [Request.headObject c.bucket_name (c._get_full_key key)]) := by
  unfold S3Cache._key_exists
  cases head_object w c.bucket_name (c._get_full_key key) <;> rfl

theorem key_exists_false_of_lookup_none {V B : Type} (c : S3Cache V B) (w : S3World B)
    (key : String)
    (h : lookupStore w.store (c.bucket_name, c._get_full_key key) = none) :
    (c._key_exists w key).1 = false := by
  unfold S3Cache._key_exists head_object
  rw [h]
  cases hf : w.headFault c.bucket_name (c._get_full_key key) <;> simp

theorem get_eq {V B : Type} (c : S3Cache V B) (w : S3World B) (key : String) :
    c.get w key =
      match head_object w c.bucket_name (c._get_full_key key) with
      | .error _ =>
        ⟨.ok none, w, [], [Request.headObject c.bucket_name (c._get_full_key key)]⟩
      | .ok _ =>
        match download_fileobj w c.bucket_name (c._get_full_key key) with
        | .error _ =>
          ⟨.ok none, w, [.warn "Failed to get key {key}", .exc],
           [Request.headObject c.bucket_name (c._get_full_key key),
            Request.downloadFileobj c.bucket_name (c._get_full_key key)]⟩
        | .ok bytes =>
          match c.serde.load bytes with
          | .error e =>
            ⟨.error e, w, [],
             [Request.headObject c.bucket_name (c._get_full_key key),
              Request.downloadFileobj c.bucket_name (c._get_full_key key)]⟩
          | .ok v =>
            ⟨.ok (some v), w, [],
             [Request.headObject c.bucket_name (c._get_full_key key),
              Request.downloadFileobj c.bucket_name (c._get_full_key key)]⟩ := by
  unfold S3Cache.get S3Cache._key_exists
  cases head_object w c.bucket_name (c._get_full_key key) with
  | error e => rfl
  | ok u =>
    cases download_fileobj w c.bucket_name (c._get_full_key key) with
    | error e => rfl
    | ok b =>
      cases c.serde.load b with
      | error e => rfl
      | ok v => rfl

theorem delete_eq {V B : Type} (c : S3Cache V B) (w : S3World B) (key : String) :
    c.delete w key =
      match head_object w c.bucket_name (c._get_full_key key) with
      | .error _ =>
        ⟨false, w, [], [Request.headObject c.bucket_name (c._get_full_key key)]⟩
      | .ok _ =>
        ⟨false, w, [.warn "Failed to delete key {key}", .exc],
         [Request.headObject c.bucket_name (c._get_full_key key),
          Request.deleteObject .positional c.bucket_name (c._get_full_key key)]⟩ := by
  unfold S3Cache.delete S3Cache._key_exists delete_object
  cases head_object w c.bucket_name (c._get_full_key key) <;> rfl

theorem set_eq {V B : Type} (c : S3Cache V B) (w : S3World B) (key : String) (v : V)
    (t : Option Nat) :
    c.set w key v t =
      match c.serde.dump v with
      | .error e => ⟨.error e, w, [], []⟩
      | .ok bytes =>
        if w.uploadFault c.bucket_name (c._get_full_key key) then
          ⟨.ok false, w, [.warn "Error while setting key {key}", .exc],
           [Request.uploadFileobj c.bucket_name (c._get_full_key key)]⟩
        else
          ⟨.ok true,
           {w with store := putStore w.store (c.bucket_name, c._get_full_key key) bytes},
           [], [Request.uploadFileobj c.bucket_name (c._get_full_key key)]⟩ := by
  unfold S3Cache.set upload_fileobj
  cases c.serde.dump v with
  | error e => rfl
  | ok b =>
    cases hf : w.uploadFault c.bucket_name (c._get_full_key key) <;> simp [hf]

theorem add_eq {V B : Type} (c : S3Cache V B) (w : S3World B) (key : String) (v : V)
    (t : Option Nat) :
    c.add w key v t =
      match head_object w c.bucket_name (c._get_full_key key) with
      | .ok _ =>
        ⟨.ok false, w, [], [Request.headObject c.bucket_name (c._get_full_key key)]⟩
      | .error _ =>
        ⟨(c.set w key v t).result, (c.set w key v t).world, (c.set w key v t).log,
         Request.headObject c.bucket_name (c._get_full_key key) :: (c.set w key v t).reqs⟩ := by
  unfold S3Cache.add S3Cache._key_exists
  cases head_object w c.bucket_name (c._get_full_key key) <;> rfl

/-! ### Claims -/

/-- Claim C8: `clear()` always returns `False`, issues no storage request, and
removes no stored object, for every state of the storage backend. -/
theorem clear_always_false_no_request {V B : Type} (c : S3Cache V B) (w : S3World B)
    (key : String) :
    (c.clear w key).result = false ∧ (c.clear w key).world = w ∧
    (c.clear w key).reqs = [] :=
  ⟨rfl, rfl, rfl⟩

/-- Claim C7: `has` performs the same existence probe as `_key_exists` but
discards its result and returns no useful value (`None`, modelled `Unit`) to
the caller: whether the probe succeeds or fails, its whole output is `()` with
the world unchanged, nothing logged, and exactly the probe's request trace. -/
theorem has_probes_and_discards {V B : Type} (c : S3Cache V B) (w : S3World B)
    (key : String) :
    (c.has w key).result = () ∧ (c.has w key).world = w ∧ (c.has w key).log = [] ∧
    (c.has w key).reqs = (c._key_exists w key).2 := by
  unfold S3Cache.has S3Cache._key_exists
  cases head_object w c.bucket_name (c._get_full_key key) <;> simp

/-- Claim C9: the timeout parameter has no effect — `set` and `add` return the
same result and leave the same storage state for any two timeout arguments —
and `default_timeout` is stored at construction but influences no operation. -/
theorem timeout_has_no_effect {V B : Type} (c : S3Cache V B) (w : S3World B)
    (key : String) (v : V) (t1 t2 : Option Nat) (d : Nat) :
    c.set w key v t1 = c.set w key v t2 ∧
    c.add w key v t1 = c.add w key v t2 ∧
    S3Cache.get {c with default_timeout := d} w key = c.get w key ∧
    S3Cache.set {c with default_timeout := d} w key v t1 = c.set w key v t1 ∧
    S3Cache.delete {c with default_timeout := d} w key = c.delete w key ∧
    S3Cache.add {c with default_timeout := d} w key v t1 = c.add w key v t1 ∧
    S3Cache.clear {c with default_timeout := d} w key = c.clear w key ∧
    S3Cache.has {c with default_timeout := d} w key = c.has w key :=
  ⟨rfl, rfl, rfl, rfl, rfl, rfl, rfl, rfl⟩

/-- Claim C5: at the spec's scenario input the key exists and no delete fault
is configured, yet `delete` returns `False` and leaves the object in place,
because the positional `delete_object` call raises `TypeError` (the source's
intent, as the keyword-style `head_object` call shows, was a successful delete
returning `True`). -/
theorem delete_existing_key_returns_false :
    lookupStore worldFix.store ("cache-bucket", "app1:session-42") = some 7 ∧
    worldFix.deleteFault "cache-bucket" "app1:session-42" = false ∧
    (S3Cache.delete cacheFix worldFix "session-42").result = false ∧
    (S3Cache.delete cacheFix worldFix "session-42").world = worldFix :=
  ⟨rfl, rfl, rfl, rfl⟩

/-- Claim C1 counterexample: with `"app1:session-42"` stored, probe and
download succeeding, but the stored bytes undecodable, `get` propagates the
deserialization error out to the caller (and logs nothing) instead of logging
the failure and returning absent. -/
theorem get_deserialization_error_escapes :
    (S3Cache.get cacheBadLoad worldFix "session-42").result = Except.error () ∧
    (S3Cache.get cacheBadLoad worldFix "session-42").log = [] :=
  ⟨rfl, rfl⟩

/-- Claim C1 (amended): `get` returns absent immediately when the existence
probe fails (in particular for every key never written), and when the probe
succeeds but the download fails it logs the failure and returns absent without
propagating the error; a failure to deserialize the downloaded bytes, however,
propagates out of `get` instead of being caught (`pickle.load` runs outside
the `try` block). -/
theorem get_error_handling {V B : Type} (c : S3Cache V B) (w : S3World B) (key : String) :
    ((c._key_exists w key).1 = false →
      c.get w key = ⟨.ok none, w, [], (c._key_exists w key).2⟩) ∧
    (lookupStore w.store (c.bucket_name, c._get_full_key key) = none →
      (c.get w key).result = .ok none) ∧
    ((c._key_exists w key).1 = true →
      w.downloadFault c.bucket_name (c._get_full_key key) = true →
      (c.get w key).result = .ok none ∧ (c.get w key).log ≠ [] ∧
      (c.get w key).world = w) ∧
    (∀ b, (c._key_exists w key).1 = true →
      download_fileobj w c.bucket_name (c._get_full_key key) = .ok b →
      c.serde.load b = .error () →
      (c.get w key).result = .error ()) := by
  refine ⟨?_, ?_, ?_, ?_⟩
  · intro hfalse
    rw [key_exists_eq] at hfalse ⊢
    rw [get_eq]
    cases hh : head_object w c.bucket_name (c._get_full_key key) with
    | error e => simp
    | ok u => rw [hh] at hfalse; simp at hfalse
  · intro hnone
    have hf := key_exists_false_of_lookup_none c w key hnone
    rw [key_exists_eq] at hf
    rw [get_eq]
    cases hh : head_object w c.bucket_name (c._get_full_key key) with
    | error e => rfl
    | ok u => rw [hh] at hf; simp at hf
  · intro htrue hdl
    rw [key_exists_eq] at htrue
    rw [get_eq]
    cases hh : head_object w c.bucket_name (c._get_full_key key) with
    | error e => rw [hh] at htrue; simp at htrue
    | ok u =>
      have hdl' : download_fileobj w c.bucket_name (c._get_full_key key) =
          .error .clientError := by
        unfold download_fileobj; rw [hdl]; simp
      rw [hdl']
      exact ⟨rfl, by simp, rfl⟩
  · intro b htrue hdl hload
    rw [key_exists_eq] at htrue
    rw [get_eq]
    cases hh : head_object w c.bucket_name (c._get_full_key key) with
    | error e => rw [hh] at htrue; simp at htrue
    | ok u => rw [hdl]; simp [hload]

/-- Witness for `get_error_handling` at concrete inputs: a never-written key
reads as absent with only the probe issued, and a stored key whose download
faults reads as absent with a log record written. -/
theorem get_error_handling_witness :
    ((cacheFix._key_exists worldEmpty "session-42").1 = false ∧
      S3Cache.get cacheFix worldEmpty "session-42" =
        ⟨.ok none, worldEmpty, [], [Request.headObject "cache-bucket" "app1:session-42"]⟩) ∧
    (lookupStore worldEmpty.store ("cache-bucket", "app1:session-42") = none ∧
      (S3Cache.get cacheFix worldEmpty "session-42").result = .ok none) ∧
    ((cacheFix._key_exists worldDownFault "session-42").1 = true ∧
      worldDownFault.downloadFault "cache-bucket" "app1:session-42" = true ∧
      (S3Cache.get cacheFix worldDownFault "session-42").result = .ok none ∧
      (S3Cache.get cacheFix worldDownFault "session-42").log ≠ []) :=
  ⟨⟨rfl, (get_error_handling cacheFix worldEmpty "session-42").1 rfl⟩,
   ⟨rfl, (get_error_handling cacheFix worldEmpty "session-42").2.1 rfl⟩,
   ⟨rfl, rfl,
    ((get_error_handling cacheFix worldDownFault "session-42").2.2.1 rfl rfl).1,
    ((get_error_handling cacheFix worldDownFault "session-42").2.2.1 rfl rfl).2.1⟩⟩

/-- Claim C2: `set` returns `True` when serialization and upload both succeed,
returns `False` and logs when the upload raises, and lets a serialization
error propagate uncaught to the caller without attempting the upload (no
request issued, world unchanged). -/
theorem set_error_handling {V B : Type} (c : S3Cache V B) (w : S3World B) (key : String)
    (v : V) (t : Option Nat) :
    (∀ b, c.serde.dump v = .ok b →
      (w.uploadFault c.bucket_name (c._get_full_key key) = false →
        (c.set w key v t).result = .ok true) ∧
      (w.uploadFault c.bucket_name (c._get_full_key key) = true →
        (c.set w key v t).result = .ok false ∧ (c.set w key v t).log ≠ [] ∧
        (c.set w key v t).world = w)) ∧
    (c.serde.dump v = .error () →
      c.set w key v t = ⟨.error (), w, [], []⟩) := by
  refine ⟨?_, ?_⟩
  · intro b hdump
    rw [set_eq, hdump]
    refine ⟨fun hup => by simp [hup], fun hup => by simp [hup]⟩
  · intro hdump
    rw [set_eq, hdump]

/-- Witness for `set_error_handling` at concrete inputs: a fault-free upload
returns `True`; a faulting upload returns `False` with a log record; an
unserializable value escapes as an error with no request issued. -/
theorem set_error_handling_witness :
    (natSerde.dump 5 = .ok 5 ∧
      worldEmpty.uploadFault "cache-bucket" "app1:k" = false ∧
      (S3Cache.set cacheFix worldEmpty "k" 5 none).result = .ok true) ∧
    (worldUpFault.uploadFault "cache-bucket" "app1:k" = true ∧
      (S3Cache.set cacheFix worldUpFault "k" 5 none).result = .ok false ∧
      (S3Cache.set cacheFix worldUpFault "k" 5 none).log ≠ []) ∧
    (badDumpSerde.dump 5 = .error () ∧
      S3Cache.set cacheBadDump worldEmpty "k" 5 none = ⟨.error (), worldEmpty, [], []⟩) :=
  ⟨⟨rfl, rfl, ((set_error_handling cacheFix worldEmpty "k" 5 none).1 5 rfl).1 rfl⟩,
   ⟨rfl, (((set_error_handling cacheFix worldUpFault "k" 5 none).1 5 rfl).2 rfl).1,
    (((set_error_handling cacheFix worldUpFault "k" 5 none).1 5 rfl).2 rfl).2.1⟩,
   ⟨rfl, (set_error_handling cacheBadDump worldEmpty "k" 5 none).2 rfl⟩⟩

/-- Claim C3: round trip — when the serializer round-trips the value and the
store succeeds on every request involved, `set(k, v)` succeeds and a following
`get(k)` returns the value `v`. -/
theorem set_get_roundtrip {V B : Type} (c : S3Cache V B) (w : S3World B) (key : String)
    (v : V) (b : B) (t : Option Nat)
    (hdump : c.serde.dump v = .ok b) (hload : c.serde.load b = .ok v)
    (hhead : w.headFault c.bucket_name (c._get_full_key key) = false)
    (hdown : w.downloadFault c.bucket_name (c._get_full_key key) = false)
    (hup : w.uploadFault c.bucket_name (c._get_full_key key) = false) :
    (c.set w key v t).result = .ok true ∧
    (c.get (c.set w key v t).world key).result = .ok (some v) := by
  have hw : (c.set w key v t).world =
      {w with store := putStore w.store (c.bucket_name, c._get_full_key key) b} := by
    rw [set_eq, hdump]; simp [hup]
  have hr : (c.set w key v t).result = .ok true := by
    rw [set_eq, hdump]; simp [hup]
  refine ⟨hr, ?_⟩
  rw [hw, get_eq]
  have hho : head_object
      {w with store := putStore w.store (c.bucket_name, c._get_full_key key) b}
      c.bucket_name (c._get_full_key key) = .ok () := by
    unfold head_object
    simp [hhead, lookupStore_putStore]
  have hdo : download_fileobj
      {w with store := putStore w.store (c.bucket_name, c._get_full_key key) b}
      c.bucket_name (c._get_full_key key) = .ok b := by
    unfold download_fileobj
    simp [hdown, lookupStore_putStore]
  rw [hho, hdo]
  simp [hload]

/-- Witness for `set_get_roundtrip`: storing `5` under `"k"` in the empty
fault-free world and reading it back yields `5`. -/
theorem set_get_roundtrip_witness :
    natSerde.dump 5 = .ok 5 ∧ natSerde.load 5 = .ok 5 ∧
    (S3Cache.set cacheFix worldEmpty "k" 5 none).result = .ok true ∧
    (S3Cache.get cacheFix (S3Cache.set cacheFix worldEmpty "k" 5 none).world "k").result =
      .ok (some 5) :=
  ⟨rfl, rfl,
   (set_get_roundtrip cacheFix worldEmpty "k" 5 5 none rfl rfl rfl rfl rfl).1,
   (set_get_roundtrip cacheFix worldEmpty "k" 5 5 none rfl rfl rfl rfl rfl).2⟩

/-- Claim C4: `delete` passes the bucket name and storage key to
`delete_object` as positional arguments, but that generated API method accepts
only keyword arguments (as the `head_object` call uses), so the delete request
always raises, the exception is caught, and `delete` returns `False` with the
store untouched — even for an existing key, for which the positional delete
request is issued. -/
theorem delete_never_returns_true {V B : Type} (c : S3Cache V B) (w : S3World B)
    (key : String) :
    ((c.delete w key).result = false ∧ (c.delete w key).world = w) ∧
    ((c._key_exists w key).1 = true →
      (c.delete w key).reqs =
        [Request.headObject c.bucket_name (c._get_full_key key),
         Request.deleteObject .positional c.bucket_name (c._get_full_key key)]) := by
  rw [delete_eq]
  cases hh : head_object w c.bucket_name (c._get_full_key key) with
  | error e =>
    refine ⟨⟨rfl, rfl⟩, fun htrue => ?_⟩
    rw [key_exists_eq] at htrue
    rw [hh] at htrue
    simp at htrue
  | ok u => exact ⟨⟨rfl, rfl⟩, fun _ => rfl⟩

/-- Witness for `delete_never_returns_true`: the key of the spec scenario
exists, and `delete` issues the head probe then the positional delete
request (and, per the first conjunct, still returns `False`). -/
theorem delete_never_returns_true_witness :
    (cacheFix._key_exists worldFix "session-42").1 = true ∧
    (S3Cache.delete cacheFix worldFix "session-42").reqs =
      [Request.headObject "cache-bucket" "app1:session-42",
       Request.deleteObject .positional "cache-bucket" "app1:session-42"] :=
  ⟨rfl, (delete_never_returns_true cacheFix worldFix "session-42").2 rfl⟩

/-- A fault-free world where `"app1:k"` already holds the stored bytes `9`. -/
def worldPre : S3World Nat := mkWorld [(("cache-bucket", "app1:k"), 9)]

/-- Claim C6 counterexample: with `"k"` already present (stored bytes `9`) and
no concurrent external writes, `add("k", 1)` followed by `add("k", 2)` leaves
the stored value `9`, which is not the serialization of `v1 = 1`. -/
theorem add_add_preexisting_not_v1 :
    natSerde.dump 1 = .ok 1 ∧ (9 : Nat) ≠ 1 ∧
    lookupStore
      (S3Cache.add cacheFix (S3Cache.add cacheFix worldPre "k" 1 none).world "k" 2
        none).world.store
      ("cache-bucket", "app1:k") = some 9 :=
  ⟨rfl, by decide, rfl⟩

/-- Claim C6 (amended): `add` returns `False` without writing when the
existence probe succeeds, and otherwise delegates to `set` and returns its
result; consequently, when `k` is initially absent and the probe and upload
succeed (and no concurrent external write races), `add(k, v1)` followed by
`add(k, v2)` leaves the stored value equal to the serialization of `v1` (the
second `add` is a no-op). -/
theorem add_check_then_set {V B : Type} (c : S3Cache V B) (w : S3World B) (key : String)
    (v1 v2 : V) (t1 t2 : Option Nat) :
    ((c._key_exists w key).1 = true →
      (c.add w key v1 t1).result = .ok false ∧ (c.add w key v1 t1).world = w ∧
      (c.add w key v1 t1).reqs = (c._key_exists w key).2) ∧
    ((c._key_exists w key).1 = false →
      (c.add w key v1 t1).result = (c.set w key v1 t1).result ∧
      (c.add w key v1 t1).world = (c.set w key v1 t1).world) ∧
    (∀ b1, c.serde.dump v1 = .ok b1 →
      w.headFault c.bucket_name (c._get_full_key key) = false →
      w.uploadFault c.bucket_name (c._get_full_key key) = false →
      lookupStore w.store (c.bucket_name, c._get_full_key key) = none →
      (c.add (c.add w key v1 t1).world key v2 t2).result = .ok false ∧
      (c.add (c.add w key v1 t1).world key v2 t2).world = (c.add w key v1 t1).world ∧
      lookupStore (c.add w key v1 t1).world.store (c.bucket_name, c._get_full_key key) =
        some b1) := by
  refine ⟨?_, ?_, ?_⟩
  · intro htrue
    rw [key_exists_eq] at htrue ⊢
    rw [add_eq]
    cases hh : head_object w c.bucket_name (c._get_full_key key) with
    | error e => rw [hh] at htrue; simp at htrue
    | ok u => exact ⟨rfl, rfl, rfl⟩
  · intro hfalse
    rw [key_exists_eq] at hfalse
    rw [add_eq]
    cases hh : head_object w c.bucket_name (c._get_full_key key) with
    | error e => exact ⟨rfl, rfl⟩
    | ok u => rw [hh] at hfalse; simp at hfalse
  · intro b1 hdump hhead hup hlook
    have hho : head_object w c.bucket_name (c._get_full_key key) = .error .notFound := by
      unfold head_object; rw [hlook]; simp [hhead]
    have hw1 : (c.add w key v1 t1).world =
        {w with store := putStore w.store (c.bucket_name, c._get_full_key key) b1} := by
      rw [add_eq, hho, set_eq, hdump]
      simp [hup]
    have hho2 : head_object (c.add w key v1 t1).world c.bucket_name
        (c._get_full_key key) = .ok () := by
      rw [hw1]
      unfold head_object
      simp [hhead, lookupStore_putStore]
    refine ⟨?_, ?_, ?_⟩
    · rw [add_eq, hho2]
    · rw [add_eq, hho2]
    · rw [hw1]
      exact lookupStore_putStore _ _ _

/-- Witness for `add_check_then_set`: on the pre-existing key of `worldPre`
the probe succeeds and `add` is a no-op; on the empty world the probe fails,
`add` delegates to `set`, and `add("k", 3)` then `add("k", 4)` leaves the
serialization of `3` stored. -/
theorem add_check_then_set_witness :
    ((cacheFix._key_exists worldPre "k").1 = true ∧
      (S3Cache.add cacheFix worldPre "k" 3 none).result = .ok false ∧
      (S3Cache.add cacheFix worldPre "k" 3 none).world = worldPre) ∧
    ((cacheFix._key_exists worldEmpty "k").1 = false ∧
      (S3Cache.add cacheFix worldEmpty "k" 3 none).result =
        (S3Cache.set cacheFix worldEmpty "k" 3 none).result) ∧
    (natSerde.dump 3 = .ok 3 ∧
      (S3Cache.add cacheFix (S3Cache.add cacheFix worldEmpty "k" 3 none).world "k" 4
        none).result = .ok false ∧
      lookupStore (S3Cache.add cacheFix worldEmpty "k" 3 none).world.store
        ("cache-bucket", "app1:k") = some 3) :=
  ⟨⟨rfl, ((add_check_then_set cacheFix worldPre "k" 3 4 none none).1 rfl).1,
    ((add_check_then_set cacheFix worldPre "k" 3 4 none none).1 rfl).2.1⟩,
   ⟨rfl, ((add_check_then_set cacheFix worldEmpty "k" 3 4 none none).2.1 rfl).1⟩,
   ⟨rfl,
    ((add_check_then_set cacheFix worldEmpty "k" 3 4 none none).2.2 3 rfl rfl rfl rfl).1,
    ((add_check_then_set cacheFix worldEmpty "k" 3 4 none none).2.2 3 rfl rfl rfl
      rfl).2.2⟩⟩

/-- Claim C10: every operation derives the storage object key deterministically
as `key_prefix ++ cache_key`: `_get_full_key` is that concatenation, every S3
request any operation issues targets exactly that derived key, and with prefix
`"app1:"` the cache key `"session-42"` maps to `"app1:session-42"`. -/
theorem storage_key_derivation {V B : Type} (c : S3Cache V B) (w : S3World B)
    (key : String) (v : V) (t : Option Nat) :
    c._get_full_key key = S3Cache.key_prefix c ++ key ∧
    ((c.get w key).reqs.all fun r => r.targetKey == S3Cache.key_prefix c ++ key) = true ∧
    ((c.delete w key).reqs.all fun r => r.targetKey == S3Cache.key_prefix c ++ key) = true ∧
    ((c.set w key v t).reqs.all fun r => r.targetKey == S3Cache.key_prefix c ++ key) = true ∧
    ((c.add w key v t).reqs.all fun r => r.targetKey == S3Cache.key_prefix c ++ key) = true ∧
    ((c.has w key).reqs.all fun r => r.targetKey == S3Cache.key_prefix c ++ key) = true ∧
    ((c.clear w key).reqs.all fun r => r.targetKey == S3Cache.key_prefix c ++ key) = true ∧
    cacheFix._get_full_key "session-42" = "app1:session-42" := by
  refine ⟨rfl, ?_, ?_, ?_, ?_, ?_, rfl, rfl⟩
  · rw [get_eq]
    cases head_object w c.bucket_name (c._get_full_key key) with
    | error e => simp [Request.targetKey, S3Cache._get_full_key]
    | ok u =>
      cases download_fileobj w c.bucket_name (c._get_full_key key) with
      | error e => simp [Request.targetKey, S3Cache._get_full_key]
      | ok b =>
        cases hl : c.serde.load b <;> simp [hl, Request.targetKey, S3Cache._get_full_key]
  · rw [delete_eq]
    cases head_object w c.bucket_name (c._get_full_key key) <;>
      simp [Request.targetKey, S3Cache._get_full_key]
  · rw [set_eq]
    cases c.serde.dump v with
    | error e => simp
    | ok b =>
      cases hf : w.uploadFault c.bucket_name (c._get_full_key key) <;>
        simp [hf, Request.targetKey, S3Cache._get_full_key]
  · rw [add_eq]
    cases head_object w c.bucket_name (c._get_full_key key) with
    | ok u => simp [Request.targetKey, S3Cache._get_full_key]
    | error e =>
      rw [set_eq]
      cases c.serde.dump v with
      | error e' => simp [Request.targetKey, S3Cache._get_full_key]
      | ok b =>
        cases hf : w.uploadFault c.bucket_name (c._get_full_key key) <;>
          simp [hf, Request.targetKey, S3Cache._get_full_key]
  · unfold S3Cache.has S3Cache._key_exists
    cases head_object w c.bucket_name (c._get_full_key key) <;>
      simp [Request.targetKey, S3Cache._get_full_key]

end S3CacheModel
